import Mathlib

/-!
# Gree climate infrared codec

A shallow embedding of `esphome/components/gree/gree.cpp` and the properties of
its state encoder, its frame transmitter and its control entry point.

* Bytes (`uint8_t`) are natural numbers below `2 ^ 8`; every store into a byte
  reduces modulo `2 ^ 8`. The operand of `~` is promoted to a 32-bit `int`, so
  the complement is taken on 32 bits.
* The remote frame `remote_state` is a list of `GREE_STATE_LENGTH` bytes.
* The signal sink (`data->mark(..)`, `data->space(..)`) is a list of pulses, in
  emission order.
* `GreeClimate::transmit_state_` reads an identifier `j` (line 182) that is
  declared nowhere in the source file; it is a parameter of the embedding.
* Line 161 casts the target temperature to `uint8_t` before clamping it. The
  cast is exact on `0 .. 255`; what it yields elsewhere is undefined in C++ and
  is a parameter of the embedding as well.
-/

namespace Gree

/-! ## Constants (lines 9–73) -/

def GREE_AUTO : Nat := 0
def GREE_COOL : Nat := 1
def GREE_DRY : Nat := 2
def GREE_FAN : Nat := 3
def GREE_HEAT : Nat := 4

def GREE_MODE_MASK : Nat := 0b00000111
def GREE_POWER1_MASK : Nat := 0b00001000
def GREE_TEMP_MASK : Nat := 0b00001111
def GREE_TEMP_MIN : Nat := 16
def GREE_TEMP_MAX : Nat := 30
def GREE_POWER2_MASK : Nat := 0b01000000

def GREE_HEADER_MARK : Nat := 9000
def GREE_HEADER_SPACE : Nat := 4500
def GREE_BIT_MARK : Nat := 620
def GREE_ONE_SPACE : Nat := 1600
def GREE_ZERO_SPACE : Nat := 540
def GREE_MSG_SPACE : Nat := 19000

def GREE_STATE_LENGTH : Nat := 8
def GREE_BITS : Nat := GREE_STATE_LENGTH * 8

/-! ## Data model -/

/-- Modelled from the spec: the enumeration `climate::ClimateMode` is declared in
the climate component, which is not part of the source file. The spec lists the
supported modes OFF, AUTO, COOL, HEAT and the reserved modes FAN_ONLY and DRY. -/
inductive ClimateMode where
  | CLIMATE_MODE_OFF
  | CLIMATE_MODE_AUTO
  | CLIMATE_MODE_COOL
  | CLIMATE_MODE_HEAT
  | CLIMATE_MODE_FAN_ONLY
  | CLIMATE_MODE_DRY
  deriving DecidableEq, Repr

/-- The fields of `GreeClimate` that `transmit_state_` and `control` read and
write. In the component `target_temperature` is a floating-point field (lines
107–111); the embedding covers the targets that are an integer number of degrees
Celsius. -/
structure GreeClimate where
  mode : ClimateMode
  target_temperature : Int
  deriving DecidableEq, Repr

/-- One entry of the signal sink: carrier on (`mark`) or carrier off (`space`)
for a duration in microseconds. -/
inductive Pulse where
  | mark (length : Nat)
  | space (length : Nat)
  deriving DecidableEq, Repr

/-- What one run of `transmit_state_` produces: the local frame `remote_state`
as it stands when the frame is logged (line 166), the carrier frequency and the
pulses handed to the transmitter. -/
structure Transmission where
  remote_state : List Nat
  carrier_frequency : Nat
  data : List Pulse
  deriving DecidableEq, Repr

/-! ## Machine arithmetic -/

/-- The cast `(uint8_t) x` of line 161, applied to the floating-point field
`target_temperature` holding the integer `x`. For `0 ≤ x ≤ 255` the result is
`x`. Outside that range C++ leaves the conversion undefined: the byte it yields
is not fixed by the source and is the parameter `undefinedCast`, kept to 8
bits. -/
def toUInt8 (undefinedCast : Int → Nat) (x : Int) : Nat :=
  if 0 ≤ x ∧ x ≤ 255 then x.toNat else undefinedCast x % 256

/-- One outcome of the undefined cast: the value is converted to a wider integer
and the low 8 bits are kept. -/
def wrapCast (x : Int) : Nat := (x % 256).toNat

/-- The operator `~` on a byte promoted to a 32-bit `int`, as a bit pattern. -/
def bitNot (m : Nat) : Nat := 2 ^ 32 - 1 - m

/-- A store of an `int` value into a `uint8_t`. -/
def storeByte (x : Nat) : Nat := x % 256

/-- The read `remote_state[k]`. -/
def readByte (remote_state : List Nat) (k : Nat) : Nat := remote_state.getD k 0

/-- `data->mark(length)`. -/
def mark (length : Nat) (data : List Pulse) : List Pulse := data ++ [Pulse.mark length]

/-- `data->space(length)`. -/
def space (length : Nat) (data : List Pulse) : List Pulse := data ++ [Pulse.space length]

/-! ## The state encoder (lines 125–164) -/

/-- Lines 125–135: the zero-initialised frame overwritten with the known good
state. -/
def knownGoodState : List Nat :=
  let remote_state := List.replicate GREE_STATE_LENGTH 0
  let remote_state := remote_state.set 0 (storeByte (readByte remote_state 0 ||| GREE_POWER1_MASK))
  let remote_state := remote_state.set 1 0x09
  let remote_state := remote_state.set 2 (storeByte (readByte remote_state 2 ||| GREE_POWER2_MASK))
  let remote_state := remote_state.set 3 0x50
  let remote_state := remote_state.set 4 0x0
  let remote_state := remote_state.set 5 0x20
  let remote_state := remote_state.set 6 0x0
  remote_state.set 7 0x50

/-- The two statements shared by the AUTO, COOL and HEAT cases:
`remote_state[0] &= ~GREE_MODE_MASK; remote_state[0] |= code;`. -/
def setModeBits (code : Nat) (remote_state : List Nat) : List Nat :=
  let remote_state :=
    remote_state.set 0 (storeByte (readByte remote_state 0 &&& bitNot GREE_MODE_MASK))
  remote_state.set 0 (storeByte (readByte remote_state 0 ||| code))

/-- Lines 137–156: the switch on `this->mode` (the keyword is spelled `swith`
in the source). OFF shares its body with `default`. -/
def switchMode (mode : ClimateMode) (remote_state : List Nat) : List Nat :=
  match mode with
  | .CLIMATE_MODE_AUTO => setModeBits GREE_AUTO remote_state
  | .CLIMATE_MODE_COOL => setModeBits GREE_COOL remote_state
  | .CLIMATE_MODE_HEAT => setModeBits GREE_HEAT remote_state
  | _ =>
    let remote_state :=
      remote_state.set 0 (storeByte (readByte remote_state 0 &&& bitNot GREE_POWER1_MASK))
    remote_state.set 2 (storeByte (readByte remote_state 2 &&& bitNot GREE_POWER2_MASK))

/-- Lines 160–164: the clamp of the target temperature, taken on the value
already cast to `uint8_t`, and the write of the temperature field. -/
def setTemperature (undefinedCast : Int → Nat) (target_temperature : Int)
    (remote_state : List Nat) : List Nat :=
  let safecelsius := max (toUInt8 undefinedCast target_temperature) GREE_TEMP_MIN
  let safecelsius := min safecelsius GREE_TEMP_MAX
  remote_state.set 1
    (storeByte ((readByte remote_state 1 &&& bitNot GREE_TEMP_MASK) |||
      (safecelsius - GREE_TEMP_MIN)))

/-! ## The frame transmitter (lines 173–201) -/

/-- Lines 182–183: `bool bit = i & (1 << j);` and the space duration chosen from
it, `bit ? GREE_ONE_SPACE : GREE_ZERO_SPACE`. The bit is read from the loop
counter `i`; the frame `remote_state` does not occur. For `j < 31` the shift is
the C++ value `2 ^ j`; the counter is at most 64, so the result is 0 for every
larger `j`. -/
def bitSpace (j i : Nat) : Nat :=
  let bit : Bool := decide (i &&& (1 <<< j) ≠ 0)
  if bit then GREE_ONE_SPACE else GREE_ZERO_SPACE

/-- Lines 181–196: the body of the data loop for loop counter `i`. -/
def dataBody (j i : Nat) (data : List Pulse) : List Pulse :=
  let data := mark GREE_BIT_MARK data
  let data := space (bitSpace j i) data
  if i = GREE_BITS / 2 then
    let data := mark GREE_BIT_MARK data
    let data := space GREE_ZERO_SPACE data
    let data := mark GREE_BIT_MARK data
    let data := space GREE_ONE_SPACE data
    let data := mark GREE_BIT_MARK data
    let data := space GREE_ZERO_SPACE data
    let data := mark GREE_BIT_MARK data
    space GREE_MSG_SPACE data
  else data

/-- Line 180: `for (int16_t i = 8; i <= GREE_BITS; i += 8)`, entered with the
current value of `i`. The counter never exceeds 72, so `int16_t` does not
overflow. -/
def dataLoop (j i : Nat) (data : List Pulse) : List Pulse :=
  if i ≤ GREE_BITS then dataLoop j (i + 8) (dataBody j i data) else data
termination_by GREE_BITS + 1 - i
decreasing_by omega

/-- Lines 176–200: the body of the repeat loop. -/
def repeatBody (j : Nat) (data : List Pulse) : List Pulse :=
  let data := mark GREE_HEADER_MARK data
  let data := space GREE_HEADER_SPACE data
  let data := dataLoop j 8 data
  let data := mark GREE_BIT_MARK data
  space GREE_MSG_SPACE data

/-- Line 175: `for (uint16_t r = 0; r <= repeat; r++)`, entered with the current
value of `r`. -/
def repeatLoop (j repeat_ r : Nat) (data : List Pulse) : List Pulse :=
  if r ≤ repeat_ then repeatLoop j repeat_ (r + 1) (repeatBody j data) else data
termination_by repeat_ + 1 - r
decreasing_by omega

/-- `GreeClimate::transmit_state_` (lines 124–204). The sink starts empty. -/
def transmit_state_ (undefinedCast : Int → Nat) (j : Nat) (self : GreeClimate) :
    Transmission :=
  let remote_state := knownGoodState
  let remote_state := switchMode self.mode remote_state
  let remote_state := setTemperature undefinedCast self.target_temperature remote_state
  let repeat_ := 1
  { remote_state := remote_state
    carrier_frequency := 38000
    data := repeatLoop j repeat_ 0 [] }

/-! ## The control entry point (lines 114–122) -/

/-- Modelled from the spec: `climate::ClimateCall` is declared in the climate
component, which is not part of the source file. The spec describes it as a
control-change notification carrying an optional new mode and an optional new
target temperature. -/
structure ClimateCall where
  mode : Option ClimateMode
  target_temperature : Option Int
  deriving DecidableEq, Repr

/-- What one run of `control` leaves behind: the object's fields, the
transmission made by `transmit_state_`, and the state handed to
`publish_state`. -/
structure ControlResult where
  state : GreeClimate
  transmission : Transmission
  published : GreeClimate
  deriving DecidableEq, Repr

/-- `GreeClimate::control` (lines 114–122). `transmit_state_` assigns to no
field of the object. `publish_state` belongs to the climate base class, which
is not part of the source file; following the spec it reports the current mode
and target temperature outward and changes neither. -/
def control (undefinedCast : Int → Nat) (j : Nat) (call : ClimateCall) (self : GreeClimate) :
    ControlResult :=
  let self :=
    match call.mode with
    | some mode => { self with mode := mode }
    | none => self
  let self :=
    match call.target_temperature with
    | some target_temperature => { self with target_temperature := target_temperature }
    | none => self
  let transmission := transmit_state_ undefinedCast j self
  { state := self
    transmission := transmission
    published := self }

/-! ## The encoder in closed form -/

/-- The clamped temperature lies between the two bounds. -/
theorem clamp_range (cast : Int → Nat) (t : Int) :
    GREE_TEMP_MIN ≤ min (max (toUInt8 cast t) GREE_TEMP_MIN) GREE_TEMP_MAX ∧
      min (max (toUInt8 cast t) GREE_TEMP_MIN) GREE_TEMP_MAX ≤ GREE_TEMP_MAX := by
  simp only [GREE_TEMP_MIN, GREE_TEMP_MAX]
  omega

/-- The frame after the switch on the mode, started from the known good state. -/
theorem switchMode_knownGoodState (mode : ClimateMode) :
    switchMode mode knownGoodState =
      match mode with
      | .CLIMATE_MODE_AUTO => [0x08, 0x09, 0x40, 0x50, 0x00, 0x20, 0x00, 0x50]
      | .CLIMATE_MODE_COOL => [0x09, 0x09, 0x40, 0x50, 0x00, 0x20, 0x00, 0x50]
      | .CLIMATE_MODE_HEAT => [0x0C, 0x09, 0x40, 0x50, 0x00, 0x20, 0x00, 0x50]
      | _ => [0x00, 0x09, 0x00, 0x50, 0x00, 0x20, 0x00, 0x50] := by
  cases mode <;> decide

/-- The temperature write on a frame whose byte 1 is the known good `0x09`. -/
theorem setTemperature_baseline (cast : Int → Nat) (t : Int) (b0 b2 b3 b4 b5 b6 b7 : Nat) :
    setTemperature cast t [b0, 0x09, b2, b3, b4, b5, b6, b7] =
      [b0, min (max (toUInt8 cast t) 16) 30 - 16, b2, b3, b4, b5, b6, b7] := by
  have h := clamp_range cast t
  simp only [GREE_TEMP_MIN, GREE_TEMP_MAX] at h
  have h9 : (0x09 : Nat) &&& bitNot GREE_TEMP_MASK = 0 := by decide
  simp only [setTemperature, readByte, List.getD_cons_succ, List.getD_cons_zero, h9,
    Nat.zero_or, storeByte, GREE_TEMP_MIN, GREE_TEMP_MAX, List.set_cons_succ, List.set_cons_zero]
  congr 2
  omega

/-- The frame built by `transmit_state_`, byte by byte. -/
theorem remote_state_closed (cast : Int → Nat) (j : Nat) (mode : ClimateMode) (t : Int) :
    (transmit_state_ cast j ⟨mode, t⟩).remote_state =
      match mode with
      | .CLIMATE_MODE_AUTO =>
        [0x08, min (max (toUInt8 cast t) 16) 30 - 16, 0x40, 0x50, 0x00, 0x20, 0x00, 0x50]
      | .CLIMATE_MODE_COOL =>
        [0x09, min (max (toUInt8 cast t) 16) 30 - 16, 0x40, 0x50, 0x00, 0x20, 0x00, 0x50]
      | .CLIMATE_MODE_HEAT =>
        [0x0C, min (max (toUInt8 cast t) 16) 30 - 16, 0x40, 0x50, 0x00, 0x20, 0x00, 0x50]
      | _ => [0x00, min (max (toUInt8 cast t) 16) 30 - 16, 0x00, 0x50, 0x00, 0x20, 0x00, 0x50] := by
  simp only [transmit_state_, switchMode_knownGoodState]
  cases mode <;> exact setTemperature_baseline cast t _ _ _ _ _ _ _

/-- Byte 0 of the frame depends on the mode alone. -/
theorem byte0_closed (cast : Int → Nat) (j : Nat) (mode : ClimateMode) (t : Int) :
    readByte (transmit_state_ cast j ⟨mode, t⟩).remote_state 0 =
      match mode with
      | .CLIMATE_MODE_AUTO => 0x08
      | .CLIMATE_MODE_COOL => 0x09
      | .CLIMATE_MODE_HEAT => 0x0C
      | _ => 0x00 := by
  rw [remote_state_closed]
  cases mode <;> rfl

/-- Byte 2 of the frame depends on the mode alone. -/
theorem byte2_closed (cast : Int → Nat) (j : Nat) (mode : ClimateMode) (t : Int) :
    readByte (transmit_state_ cast j ⟨mode, t⟩).remote_state 2 =
      match mode with
      | .CLIMATE_MODE_AUTO => 0x40
      | .CLIMATE_MODE_COOL => 0x40
      | .CLIMATE_MODE_HEAT => 0x40
      | _ => 0x00 := by
  rw [remote_state_closed]
  cases mode <;> rfl

/-- Byte 1 of the frame is the clamped `uint8_t` target minus 16, for every
mode. -/
theorem byte1_closed (cast : Int → Nat) (j : Nat) (mode : ClimateMode) (t : Int) :
    readByte (transmit_state_ cast j ⟨mode, t⟩).remote_state 1 =
      min (max (toUInt8 cast t) 16) 30 - 16 := by
  rw [remote_state_closed]
  cases mode <;> rfl

/-- A value up to 14 lies in the low nibble. -/
theorem low_nibble_small : ∀ x, x ≤ 14 → x &&& 0x0F = x ∧ x &&& 0xF0 = 0 := by
  decide

/-- On `0 .. 255` the cast is exact, whatever it yields elsewhere. -/
theorem toUInt8_inRange (cast : Int → Nat) (t : Int) (h0 : 0 ≤ t) (h255 : t ≤ 255) :
    toUInt8 cast t = t.toNat := by
  simp [toUInt8, h0, h255]

/-- For a target in `0 .. 255` byte 1 of the frame is the clamped target minus
16, for every mode and whatever the cast yields outside that range. -/
theorem byte1_inRange (cast : Int → Nat) (j : Nat) (mode : ClimateMode) (t : Int)
    (h0 : 0 ≤ t) (h255 : t ≤ 255) :
    ((readByte (transmit_state_ cast j ⟨mode, t⟩).remote_state 1 : Nat) : Int)
      = min (max t 16) 30 - 16 := by
  rw [byte1_closed, toUInt8_inRange cast t h0 h255]
  omega

/-- For targets in `0 .. 255` the temperature field is monotone in the target,
for any two modes and whatever the cast yields outside that range. -/
theorem temperature_field_monotone_inRange (cast : Int → Nat) (j : Nat)
    (m1 m2 : ClimateMode) (t1 t2 : Int) (h0 : 0 ≤ t1) (h12 : t1 ≤ t2) (h255 : t2 ≤ 255) :
    readByte (transmit_state_ cast j ⟨m1, t1⟩).remote_state 1 &&& 0x0F
      ≤ readByte (transmit_state_ cast j ⟨m2, t2⟩).remote_state 1 &&& 0x0F := by
  have hr1 := clamp_range cast t1
  have hr2 := clamp_range cast t2
  simp only [GREE_TEMP_MIN, GREE_TEMP_MAX] at hr1 hr2
  have hn1 := (low_nibble_small (min (max (toUInt8 cast t1) 16) 30 - 16) (by omega)).1
  have hn2 := (low_nibble_small (min (max (toUInt8 cast t2) 16) 30 - 16) (by omega)).1
  rw [byte1_closed, byte1_closed, hn1, hn2,
    toUInt8_inRange cast t1 h0 (by omega), toUInt8_inRange cast t2 (by omega) h255]
  omega

/-! ## The transmitter in closed form -/

/-- The pulses one pass through the repeat loop appends to the sink. -/
theorem repeatBody_closed (j : Nat) (data : List Pulse) :
    repeatBody j data = data ++
      [.mark 9000, .space 4500,
       .mark 620, .space (bitSpace j 8), .mark 620, .space (bitSpace j 16),
       .mark 620, .space (bitSpace j 24), .mark 620, .space (bitSpace j 32),
       .mark 620, .space 540, .mark 620, .space 1600, .mark 620, .space 540,
       .mark 620, .space 19000,
       .mark 620, .space (bitSpace j 40), .mark 620, .space (bitSpace j 48),
       .mark 620, .space (bitSpace j 56), .mark 620, .space (bitSpace j 64),
       .mark 620, .space 19000] := by
  simp [repeatBody, dataLoop, dataBody, mark, space, GREE_BITS, GREE_STATE_LENGTH,
    GREE_HEADER_MARK, GREE_HEADER_SPACE, GREE_BIT_MARK, GREE_ONE_SPACE, GREE_ZERO_SPACE,
    GREE_MSG_SPACE]

/-- The repeat loop with `repeat = 1` runs its body twice. -/
theorem repeatLoop_one (j : Nat) (data : List Pulse) :
    repeatLoop j 1 0 data = repeatBody j (repeatBody j data) := by
  simp [repeatLoop]

/-- The pulses of a whole run: two passes through the repeat loop, started on an
empty sink. -/
theorem data_closed (cast : Int → Nat) (j : Nat) (self : GreeClimate) :
    (transmit_state_ cast j self).data = repeatBody j [] ++ repeatBody j [] := by
  simp only [transmit_state_, repeatLoop_one]
  rw [repeatBody_closed j (repeatBody j []), repeatBody_closed j []]
  rfl

/-! ## Claims about the state encoder -/

/-- C1 (the code at targets -1 and 272): line 161 casts the target to `uint8_t`
before it clamps, so for every mode the temperature field is the clamp of the
byte the cast yields, not the clamp of the target. When the cast keeps the low
8 bits, the target -1 becomes 255 and the field is 14, where
`min (max t 16) 30 - 16` is 0, and the target 272 becomes 16 and the field is
0, where `min (max t 16) 30 - 16` is 14. -/
theorem temperature_cast_precedes_clamp (j : Nat) (mode : ClimateMode) :
    (∀ (cast : Int → Nat) (t : Int),
      readByte (transmit_state_ cast j ⟨mode, t⟩).remote_state 1 &&& 0b00001111
        = min (max (toUInt8 cast t) 16) 30 - 16) ∧
    (toUInt8 wrapCast (-1) = 255 ∧
      readByte (transmit_state_ wrapCast j ⟨mode, -1⟩).remote_state 1 &&& 0b00001111 = 14 ∧
      (14 : Int) ≠ min (max (-1) 16) 30 - 16) ∧
    (toUInt8 wrapCast 272 = 16 ∧
      readByte (transmit_state_ wrapCast j ⟨mode, 272⟩).remote_state 1 &&& 0b00001111 = 0 ∧
      (0 : Int) ≠ min (max 272 16) 30 - 16) := by
  refine ⟨fun cast t => ?_, ⟨by decide, ?_, by decide⟩, ⟨by decide, ?_, by decide⟩⟩
  · have hr := clamp_range cast t
    simp only [GREE_TEMP_MIN, GREE_TEMP_MAX] at hr
    rw [byte1_closed]
    exact (low_nibble_small _ (by omega)).1
  · rw [byte1_closed]
    decide
  · rw [byte1_closed]
    decide

/-- C2: for the modes AUTO, COOL and HEAT and every target temperature, the mode
field `byte0 & 0b00000111` of the frame is 0, 1 and 4 respectively, and the
power1 bit `byte0 & 0b00001000` and the power2 bit `byte2 & 0b01000000` are
set. -/
theorem mode_field_and_power_bits_set (cast : Int → Nat) (j : Nat) (t : Int) :
    (readByte (transmit_state_ cast j ⟨.CLIMATE_MODE_AUTO, t⟩).remote_state 0 &&& 0b00000111 = 0 ∧
      readByte (transmit_state_ cast j ⟨.CLIMATE_MODE_AUTO, t⟩).remote_state 0 &&& 0b00001000
        = 0b00001000 ∧
      readByte (transmit_state_ cast j ⟨.CLIMATE_MODE_AUTO, t⟩).remote_state 2 &&& 0b01000000
        = 0b01000000) ∧
    (readByte (transmit_state_ cast j ⟨.CLIMATE_MODE_COOL, t⟩).remote_state 0 &&& 0b00000111 = 1 ∧
      readByte (transmit_state_ cast j ⟨.CLIMATE_MODE_COOL, t⟩).remote_state 0 &&& 0b00001000
        = 0b00001000 ∧
      readByte (transmit_state_ cast j ⟨.CLIMATE_MODE_COOL, t⟩).remote_state 2 &&& 0b01000000
        = 0b01000000) ∧
    (readByte (transmit_state_ cast j ⟨.CLIMATE_MODE_HEAT, t⟩).remote_state 0 &&& 0b00000111 = 4 ∧
      readByte (transmit_state_ cast j ⟨.CLIMATE_MODE_HEAT, t⟩).remote_state 0 &&& 0b00001000
        = 0b00001000 ∧
      readByte (transmit_state_ cast j ⟨.CLIMATE_MODE_HEAT, t⟩).remote_state 2 &&& 0b01000000
        = 0b01000000) := by
  simp only [byte0_closed, byte2_closed]
  decide

/-- C3: for mode OFF and every target temperature, the power1 bit
`byte0 & 0b00001000` and the power2 bit `byte2 & 0b01000000` of the frame are
clear. -/
theorem off_clears_both_power_bits (cast : Int → Nat) (j : Nat) (t : Int) :
    readByte (transmit_state_ cast j ⟨.CLIMATE_MODE_OFF, t⟩).remote_state 0 &&& 0b00001000 = 0 ∧
    readByte (transmit_state_ cast j ⟨.CLIMATE_MODE_OFF, t⟩).remote_state 2 &&& 0b01000000 = 0 := by
  simp only [byte0_closed, byte2_closed]
  decide

/-- C4: for every mode and target temperature, the bits of the frame outside
the mode field, power1, the temperature field and power2 have their value in
the known good state: `byte0 & 0xF0 = 0`, `byte1 & 0xF0 = 0x09 & 0xF0`,
`byte2 & 0xBF = 0`, and bytes 3 to 7 are `0x50, 0x00, 0x20, 0x00, 0x50`. -/
theorem unowned_bits_keep_baseline (cast : Int → Nat) (j : Nat) (mode : ClimateMode)
    (t : Int) :
    (transmit_state_ cast j ⟨mode, t⟩).remote_state.length = 8 ∧
    (readByte (transmit_state_ cast j ⟨mode, t⟩).remote_state 0 &&& 0xF0
        = readByte knownGoodState 0 &&& 0xF0 ∧
      readByte (transmit_state_ cast j ⟨mode, t⟩).remote_state 0 &&& 0xF0 = 0) ∧
    (readByte (transmit_state_ cast j ⟨mode, t⟩).remote_state 1 &&& 0xF0
        = readByte knownGoodState 1 &&& 0xF0 ∧
      readByte (transmit_state_ cast j ⟨mode, t⟩).remote_state 1 &&& 0xF0 = 0x09 &&& 0xF0) ∧
    (readByte (transmit_state_ cast j ⟨mode, t⟩).remote_state 2 &&& 0xBF
        = readByte knownGoodState 2 &&& 0xBF ∧
      readByte (transmit_state_ cast j ⟨mode, t⟩).remote_state 2 &&& 0xBF = 0) ∧
    ((transmit_state_ cast j ⟨mode, t⟩).remote_state.drop 3 = knownGoodState.drop 3 ∧
      (transmit_state_ cast j ⟨mode, t⟩).remote_state.drop 3 = [0x50, 0x00, 0x20, 0x00, 0x50]) := by
  have hr := clamp_range cast t
  simp only [GREE_TEMP_MIN, GREE_TEMP_MAX] at hr
  have hn := (low_nibble_small (min (max (toUInt8 cast t) 16) 30 - 16) (by omega)).2
  refine ⟨?_, ?_, ?_, ?_, ?_⟩
  · rw [remote_state_closed]
    cases mode <;> rfl
  · rw [byte0_closed]
    cases mode <;> decide
  · rw [byte1_closed, hn]
    decide
  · rw [byte2_closed]
    cases mode <;> decide
  · rw [remote_state_closed]
    cases mode <;> exact ⟨rfl, rfl⟩

/-! ## Claims about the frame transmitter -/

/-- C5 (the code at mode COOL, target 22): the frame is
`09 06 40 50 00 20 00 50`, yet for every value of `j` the sink receives 56
pulses, 28 per repetition: the header, eight data-bit pairs whose space is
chosen from bit `j` of the loop counter 8, 16, .., 64 (with the footer after
the fourth), and the trailing pair. No repetition holds 64 data-bit pairs and
no byte of the frame is read. -/
theorem data_loop_emits_eight_counter_bits (cast : Int → Nat) (j : Nat) :
    (transmit_state_ cast j ⟨.CLIMATE_MODE_COOL, 22⟩).remote_state
      = [0x09, 0x06, 0x40, 0x50, 0x00, 0x20, 0x00, 0x50] ∧
    (transmit_state_ cast j ⟨.CLIMATE_MODE_COOL, 22⟩).data.length = 56 ∧
    (transmit_state_ cast j ⟨.CLIMATE_MODE_COOL, 22⟩).data.take 28 =
      [.mark 9000, .space 4500,
       .mark 620, .space (bitSpace j 8), .mark 620, .space (bitSpace j 16),
       .mark 620, .space (bitSpace j 24), .mark 620, .space (bitSpace j 32),
       .mark 620, .space 540, .mark 620, .space 1600, .mark 620, .space 540,
       .mark 620, .space 19000,
       .mark 620, .space (bitSpace j 40), .mark 620, .space (bitSpace j 48),
       .mark 620, .space (bitSpace j 56), .mark 620, .space (bitSpace j 64),
       .mark 620, .space 19000] ∧
    (transmit_state_ cast j ⟨.CLIMATE_MODE_COOL, 22⟩).data.drop 28 =
      (transmit_state_ cast j ⟨.CLIMATE_MODE_COOL, 22⟩).data.take 28 := by
  refine ⟨?_, ?_, ?_, ?_⟩
  · rw [remote_state_closed, toUInt8_inRange cast 22 (by decide) (by decide)]
    decide
  all_goals
    rw [data_closed, repeatBody_closed]
    rfl

/-- C6 (the code at mode HEAT, target 25): for every value of `j`, in each
repetition the footer `(620,540) (620,1600) (620,540) (620,19000)` is emitted
once by the loop, when the counter is 32, which is the fourth pass: four
data-bit pairs lie between the header and the footer and four follow it, not
32 and 32. -/
theorem footer_follows_fourth_data_pair (cast : Int → Nat) (j : Nat) :
    (transmit_state_ cast j ⟨.CLIMATE_MODE_HEAT, 25⟩).data.take 2 = [.mark 9000, .space 4500] ∧
    ((transmit_state_ cast j ⟨.CLIMATE_MODE_HEAT, 25⟩).data.drop 2).take 8 =
      [.mark 620, .space (bitSpace j 8), .mark 620, .space (bitSpace j 16),
       .mark 620, .space (bitSpace j 24), .mark 620, .space (bitSpace j 32)] ∧
    ((transmit_state_ cast j ⟨.CLIMATE_MODE_HEAT, 25⟩).data.drop 10).take 8 =
      [.mark 620, .space 540, .mark 620, .space 1600, .mark 620, .space 540,
       .mark 620, .space 19000] ∧
    ((transmit_state_ cast j ⟨.CLIMATE_MODE_HEAT, 25⟩).data.drop 18).take 8 =
      [.mark 620, .space (bitSpace j 40), .mark 620, .space (bitSpace j 48),
       .mark 620, .space (bitSpace j 56), .mark 620, .space (bitSpace j 64)] ∧
    ((transmit_state_ cast j ⟨.CLIMATE_MODE_HEAT, 25⟩).data.drop 26).take 2 =
      [.mark 620, .space 19000] ∧
    (transmit_state_ cast j ⟨.CLIMATE_MODE_HEAT, 25⟩).data.drop 28 =
      (transmit_state_ cast j ⟨.CLIMATE_MODE_HEAT, 25⟩).data.take 28 := by
  refine ⟨?_, ?_, ?_, ?_, ?_, ?_⟩ <;>
    · rw [data_closed, repeatBody_closed]
      rfl

/-- C7: for every mode and target temperature (and every `j`), the pulse
sequence is non-empty, its first mark/space pair is (9000, 4500), and each of
the two repetitions it consists of begins with that pair. -/
theorem sequence_begins_with_header (cast : Int → Nat) (j : Nat) (self : GreeClimate) :
    (transmit_state_ cast j self).data ≠ [] ∧
    (transmit_state_ cast j self).data.take 2 = [.mark 9000, .space 4500] ∧
    ∃ rest : List Pulse,
      repeatBody j [] = .mark 9000 :: .space 4500 :: rest ∧
      (transmit_state_ cast j self).data =
        (.mark 9000 :: .space 4500 :: rest) ++ (.mark 9000 :: .space 4500 :: rest) := by
  rw [data_closed, repeatBody_closed]
  exact ⟨by simp, rfl, _, rfl, rfl⟩

/-- C8: for every mode and target temperature (and every `j`), the pulse
sequence is two back-to-back copies of one transmission, the pulses of one pass
through the repeat loop, which run from the header (9000, 4500) to the trailing
pause (620, 19000). -/
theorem sequence_is_two_transmissions (cast : Int → Nat) (j : Nat) (self : GreeClimate) :
    (transmit_state_ cast j self).data = repeatBody j [] ++ repeatBody j [] ∧
    (∀ data : List Pulse, repeatBody j data = data ++ repeatBody j []) ∧
    ∃ middle : List Pulse,
      repeatBody j [] =
        [.mark 9000, .space 4500] ++ middle ++ [.mark 620, .space 19000] := by
  refine ⟨data_closed cast j self, fun data => ?_, ?_⟩
  · rw [repeatBody_closed j data, repeatBody_closed j []]
    rfl
  · rw [repeatBody_closed]
    exact ⟨[.mark 620, .space (bitSpace j 8), .mark 620, .space (bitSpace j 16),
       .mark 620, .space (bitSpace j 24), .mark 620, .space (bitSpace j 32),
       .mark 620, .space 540, .mark 620, .space 1600, .mark 620, .space 540,
       .mark 620, .space 19000,
       .mark 620, .space (bitSpace j 40), .mark 620, .space (bitSpace j 48),
       .mark 620, .space (bitSpace j 56), .mark 620, .space (bitSpace j 64)], rfl⟩

/-- C9 (the code at mode OFF, target 16): for every value of `j`, each
repetition ends with the pair (620, 19000) and the whole sequence ends with it,
but the pair follows the data-bit pair of loop counter 64, which is the eighth
data-bit pair of the repetition: it is the 14th pair of a repetition of 14
pairs, not the pair after a 64th data-bit pair. -/
theorem trailing_pair_follows_eighth_data_pair (cast : Int → Nat) (j : Nat) :
    (transmit_state_ cast j ⟨.CLIMATE_MODE_OFF, 16⟩).data.length = 2 * (2 * (1 + 8 + 4 + 1)) ∧
    ((transmit_state_ cast j ⟨.CLIMATE_MODE_OFF, 16⟩).data.take 28).drop 24 =
      [.mark 620, .space (bitSpace j 64), .mark 620, .space 19000] ∧
    (transmit_state_ cast j ⟨.CLIMATE_MODE_OFF, 16⟩).data.drop 52 =
      [.mark 620, .space (bitSpace j 64), .mark 620, .space 19000] := by
  refine ⟨?_, ?_, ?_⟩ <;>
    · rw [data_closed, repeatBody_closed]
      rfl

/-- C10: for every mode other than AUTO, COOL and HEAT (OFF, FAN_ONLY, DRY) and
every target temperature, the frame equals the frame built for mode OFF with
the same target temperature; and a frame of 8 bytes is built for every mode. -/
theorem unsupported_mode_encodes_as_off (cast : Int → Nat) (j : Nat) (mode : ClimateMode)
    (t : Int)
    (hAuto : mode ≠ .CLIMATE_MODE_AUTO) (hCool : mode ≠ .CLIMATE_MODE_COOL)
    (hHeat : mode ≠ .CLIMATE_MODE_HEAT) :
    (transmit_state_ cast j ⟨mode, t⟩).remote_state
      = (transmit_state_ cast j ⟨.CLIMATE_MODE_OFF, t⟩).remote_state ∧
    ∀ m : ClimateMode, (transmit_state_ cast j ⟨m, t⟩).remote_state.length = GREE_STATE_LENGTH := by
  constructor
  · rw [remote_state_closed, remote_state_closed]
    cases mode <;> first | rfl | contradiction
  · intro m
    rw [remote_state_closed]
    cases m <;> rfl

/-- C10 (witness): the frames for DRY and FAN_ONLY at target 22 are the frame
for OFF at target 22. -/
theorem unsupported_mode_encodes_as_off_witness :
    (transmit_state_ wrapCast 0 ⟨.CLIMATE_MODE_DRY, 22⟩).remote_state
      = (transmit_state_ wrapCast 0 ⟨.CLIMATE_MODE_OFF, 22⟩).remote_state ∧
    (transmit_state_ wrapCast 0 ⟨.CLIMATE_MODE_FAN_ONLY, 22⟩).remote_state
      = (transmit_state_ wrapCast 0 ⟨.CLIMATE_MODE_OFF, 22⟩).remote_state :=
  ⟨(unsupported_mode_encodes_as_off wrapCast 0 .CLIMATE_MODE_DRY 22
      (by decide) (by decide) (by decide)).1,
    (unsupported_mode_encodes_as_off wrapCast 0 .CLIMATE_MODE_FAN_ONLY 22
      (by decide) (by decide) (by decide)).1⟩

/-! ## Claims about whole frames -/

/-- C11 (counterexample): for mode OFF and target 22, byte 1 of the frame is
`0x06`, not the `0x09` of the known good state: the temperature field is
written for OFF as for every other mode. -/
theorem off_frame_byte1_not_baseline :
    readByte knownGoodState 1 = 0x09 ∧
    readByte (transmit_state_ wrapCast 0 ⟨.CLIMATE_MODE_OFF, 22⟩).remote_state 1 = 0x06 ∧
    readByte (transmit_state_ wrapCast 0 ⟨.CLIMATE_MODE_OFF, 22⟩).remote_state 1
      ≠ readByte knownGoodState 1 := by
  decide

/-- C11 (amended): for mode OFF and every target temperature `t`, bytes 3 to 7
of the frame are those of the known good state
`08 09 40 50 00 20 00 50`, namely `50 00 20 00 50`; byte 0 has power1 cleared
and byte 2 has power2 cleared (both are `00`); byte 1 keeps the upper four bits
of the known good state and carries the temperature field in its lower four
bits, so that for `t` in `0 .. 255` byte 1 is `min (max t 16) 30 - 16`. -/
theorem off_frame_bytes (cast : Int → Nat) (j : Nat) (t : Int) :
    knownGoodState = [0x08, 0x09, 0x40, 0x50, 0x00, 0x20, 0x00, 0x50] ∧
    (transmit_state_ cast j ⟨.CLIMATE_MODE_OFF, t⟩).remote_state.length = 8 ∧
    ((transmit_state_ cast j ⟨.CLIMATE_MODE_OFF, t⟩).remote_state.drop 3
        = knownGoodState.drop 3 ∧
      (transmit_state_ cast j ⟨.CLIMATE_MODE_OFF, t⟩).remote_state.drop 3
        = [0x50, 0x00, 0x20, 0x00, 0x50]) ∧
    (readByte (transmit_state_ cast j ⟨.CLIMATE_MODE_OFF, t⟩).remote_state 0 = 0x00 ∧
      readByte (transmit_state_ cast j ⟨.CLIMATE_MODE_OFF, t⟩).remote_state 0 &&& 0b00001000
        = 0) ∧
    (readByte (transmit_state_ cast j ⟨.CLIMATE_MODE_OFF, t⟩).remote_state 2 = 0x00 ∧
      readByte (transmit_state_ cast j ⟨.CLIMATE_MODE_OFF, t⟩).remote_state 2 &&& 0b01000000
        = 0) ∧
    readByte (transmit_state_ cast j ⟨.CLIMATE_MODE_OFF, t⟩).remote_state 1 &&& 0xF0
      = readByte knownGoodState 1 &&& 0xF0 ∧
    (0 ≤ t → t ≤ 255 →
      ((readByte (transmit_state_ cast j ⟨.CLIMATE_MODE_OFF, t⟩).remote_state 1 : Nat) : Int)
          = min (max t 16) 30 - 16 ∧
        ((readByte (transmit_state_ cast j ⟨.CLIMATE_MODE_OFF, t⟩).remote_state 1 &&& 0x0F
            : Nat) : Int) = min (max t 16) 30 - 16) := by
  have hr := clamp_range cast t
  simp only [GREE_TEMP_MIN, GREE_TEMP_MAX] at hr
  have hn := low_nibble_small (min (max (toUInt8 cast t) 16) 30 - 16) (by omega)
  refine ⟨by decide, ?_, ?_, ?_, ?_, ?_, fun h0 h255 => ?_⟩
  · rw [remote_state_closed]
    rfl
  · rw [remote_state_closed]
    exact ⟨rfl, rfl⟩
  · rw [byte0_closed]
    decide
  · rw [byte2_closed]
    decide
  · rw [byte1_closed, hn.2]
    decide
  · have hb := byte1_inRange cast j .CLIMATE_MODE_OFF t h0 h255
    refine ⟨hb, ?_⟩
    rw [← hb, byte1_closed, hn.1]

/-- C11 (witness): for mode OFF and target 22, which lies in `0 .. 255`, byte 1
is `0x06`. -/
theorem off_frame_bytes_witness :
    (0 : Int) ≤ 22 ∧ (22 : Int) ≤ 255 ∧
    ((readByte (transmit_state_ wrapCast 0 ⟨.CLIMATE_MODE_OFF, 22⟩).remote_state 1 : Nat) : Int)
      = 0x06 :=
  ⟨by decide, by decide,
    ((off_frame_bytes wrapCast 0 22).2.2.2.2.2.2 (by decide) (by decide)).1.trans (by decide)⟩

/-- C12: for mode COOL and target temperature 22 the frame is exactly
`[0b00001001, 0b00000110, 0b01000000, 0x50, 0x00, 0x20, 0x00, 0x50]`: power1
set with mode bits 1, the temperature field 22 - 16 = 6 under the upper bits of
the known good `0x09`, and power2 set. -/
theorem cool_22_frame (cast : Int → Nat) (j : Nat) :
    (transmit_state_ cast j ⟨.CLIMATE_MODE_COOL, 22⟩).remote_state
      = [0b00001001, 0b00000110, 0b01000000, 0x50, 0x00, 0x20, 0x00, 0x50] ∧
    readByte (transmit_state_ cast j ⟨.CLIMATE_MODE_COOL, 22⟩).remote_state 0
      = (readByte knownGoodState 0 &&& bitNot GREE_MODE_MASK) ||| GREE_COOL ∧
    readByte (transmit_state_ cast j ⟨.CLIMATE_MODE_COOL, 22⟩).remote_state 1
      = (0x09 &&& 0xF0) ||| (22 - 16) ∧
    readByte (transmit_state_ cast j ⟨.CLIMATE_MODE_COOL, 22⟩).remote_state 2
      = readByte knownGoodState 2 := by
  simp only [byte0_closed, byte1_closed, byte2_closed, remote_state_closed,
    toUInt8_inRange cast 22 (by decide) (by decide)]
  decide

/-! ## Claims about `control` -/

/-- C13: `control` leaves absent fields unchanged: after the call the mode is
the mode of the call if it has one and the prior mode otherwise, the target
temperature is that of the call if it has one and the prior one otherwise, and
a call with neither field leaves the state as it was. -/
theorem control_keeps_absent_fields (cast : Int → Nat) (j : Nat) (call : ClimateCall)
    (self : GreeClimate) :
    (control cast j call self).state.mode = call.mode.getD self.mode ∧
    (control cast j call self).state.target_temperature
      = call.target_temperature.getD self.target_temperature ∧
    (control cast j ⟨none, none⟩ self).state = self ∧
    (∀ mode : ClimateMode,
      (control cast j ⟨some mode, none⟩ self).state = ⟨mode, self.target_temperature⟩) ∧
    (∀ t : Int, (control cast j ⟨none, some t⟩ self).state = ⟨self.mode, t⟩) := by
  obtain ⟨m, t⟩ := call
  cases m <;> cases t <;> simp [control]

/-- C14: encoding is deterministic and state-free: whatever state `s0` and call
`c0` were encoded before, a control call that sets the state to
`(mode, t)` and a following control call that changes nothing transmit the same
frame and the same pulses, those of `transmit_state_` on `(mode, t)`. -/
theorem encoding_is_deterministic (cast : Int → Nat) (j : Nat) (s0 : GreeClimate)
    (c0 : ClimateCall)
    (mode : ClimateMode) (t : Int) :
    (control cast j ⟨some mode, some t⟩ (control cast j c0 s0).state).transmission
      = transmit_state_ cast j ⟨mode, t⟩ ∧
    (control cast j ⟨none, none⟩
        (control cast j ⟨some mode, some t⟩ (control cast j c0 s0).state).state).transmission
      = (control cast j ⟨some mode, some t⟩ (control cast j c0 s0).state).transmission ∧
    (control cast j ⟨none, none⟩
        (control cast j ⟨some mode, some t⟩ (control cast j c0 s0).state).state).transmission.remote_state
      = (transmit_state_ cast j ⟨mode, t⟩).remote_state ∧
    (control cast j ⟨none, none⟩
        (control cast j ⟨some mode, some t⟩ (control cast j c0 s0).state).state).transmission.data
      = (transmit_state_ cast j ⟨mode, t⟩).data := by
  simp [control]

/-! ## Invariants and relations of the encoder and the transmitter -/

/-- C15: for every mode and every integer target temperature, the temperature
field `byte1 & 0x0F` of the frame is at most 14, so the field plus 16 lies in
`16 .. 30`, and the field is never 15. -/
theorem temperature_field_at_most_14 (cast : Int → Nat) (j : Nat) (mode : ClimateMode) (t : Int) :
    readByte (transmit_state_ cast j ⟨mode, t⟩).remote_state 1 &&& 0x0F ≤ 14 ∧
    16 ≤ (readByte (transmit_state_ cast j ⟨mode, t⟩).remote_state 1 &&& 0x0F) + 16 ∧
    (readByte (transmit_state_ cast j ⟨mode, t⟩).remote_state 1 &&& 0x0F) + 16 ≤ 30 ∧
    readByte (transmit_state_ cast j ⟨mode, t⟩).remote_state 1 &&& 0x0F ≠ 15 := by
  have hr := clamp_range cast t
  simp only [GREE_TEMP_MIN, GREE_TEMP_MAX] at hr
  have hn := (low_nibble_small (min (max (toUInt8 cast t) 16) 30 - 16) (by omega)).1
  rw [byte1_closed, hn]
  omega

/-- C16: for every mode and every target temperature, the power1 bit
`byte0 & 0x08` of the frame is set if and only if the power2 bit
`byte2 & 0x40` is set. -/
theorem power_flags_agree (cast : Int → Nat) (j : Nat) (mode : ClimateMode) (t : Int) :
    (readByte (transmit_state_ cast j ⟨mode, t⟩).remote_state 0 &&& 0x08 ≠ 0 ↔
      readByte (transmit_state_ cast j ⟨mode, t⟩).remote_state 2 &&& 0x40 ≠ 0) ∧
    (readByte (transmit_state_ cast j ⟨mode, t⟩).remote_state 0 &&& 0x08 = 0x08 ↔
      readByte (transmit_state_ cast j ⟨mode, t⟩).remote_state 2 &&& 0x40 = 0x40) := by
  rw [byte0_closed, byte2_closed]
  cases mode <;> decide

/-- C17 (the code at the frames of COOL/22 and OFF/16): the two frames differ,
`09 06 40 50 00 20 00 50` against `00 00 00 50 00 20 00 50`, yet for every
value of `j` the pulses sent for them are the same; and the pulses are the same
for any two states at all, since the data loop reads its bits from the loop
counter and not from the frame. -/
theorem timing_independent_of_frame (cast : Int → Nat) (j : Nat) :
    (transmit_state_ cast j ⟨.CLIMATE_MODE_COOL, 22⟩).remote_state
      = [0x09, 0x06, 0x40, 0x50, 0x00, 0x20, 0x00, 0x50] ∧
    (transmit_state_ cast j ⟨.CLIMATE_MODE_OFF, 16⟩).remote_state
      = [0x00, 0x00, 0x00, 0x50, 0x00, 0x20, 0x00, 0x50] ∧
    (transmit_state_ cast j ⟨.CLIMATE_MODE_COOL, 22⟩).remote_state
      ≠ (transmit_state_ cast j ⟨.CLIMATE_MODE_OFF, 16⟩).remote_state ∧
    (transmit_state_ cast j ⟨.CLIMATE_MODE_COOL, 22⟩).data
      = (transmit_state_ cast j ⟨.CLIMATE_MODE_OFF, 16⟩).data ∧
    ∀ s1 s2 : GreeClimate, (transmit_state_ cast j s1).data = (transmit_state_ cast j s2).data := by
  refine ⟨?_, ?_, ?_, ?_, ?_⟩
  · rw [remote_state_closed, toUInt8_inRange cast 22 (by decide) (by decide)]
    decide
  · rw [remote_state_closed, toUInt8_inRange cast 16 (by decide) (by decide)]
    decide
  · rw [remote_state_closed, remote_state_closed,
      toUInt8_inRange cast 22 (by decide) (by decide),
      toUInt8_inRange cast 16 (by decide) (by decide)]
    decide
  · rw [data_closed, data_closed]
  · intro s1 s2
    rw [data_closed, data_closed]

/-- C18: bytes 0 and 2 of the frame depend on the mode only (two target
temperatures under one mode give the same bytes 0 and 2), and byte 1 depends on
the target temperature only (two modes under one target temperature give the
same byte 1). -/
theorem frame_fields_independent (cast : Int → Nat) (j : Nat) (m1 m2 : ClimateMode) (t1 t2 : Int) :
    readByte (transmit_state_ cast j ⟨m1, t1⟩).remote_state 0
      = readByte (transmit_state_ cast j ⟨m1, t2⟩).remote_state 0 ∧
    readByte (transmit_state_ cast j ⟨m1, t1⟩).remote_state 2
      = readByte (transmit_state_ cast j ⟨m1, t2⟩).remote_state 2 ∧
    readByte (transmit_state_ cast j ⟨m1, t1⟩).remote_state 1
      = readByte (transmit_state_ cast j ⟨m2, t1⟩).remote_state 1 := by
  refine ⟨?_, ?_, ?_⟩
  · rw [byte0_closed, byte0_closed]
  · rw [byte2_closed, byte2_closed]
  · rw [byte1_closed, byte1_closed]

/-- C19 (the code at targets 30 ≤ 272 and -1 ≤ 0): line 161 casts the target
to `uint8_t` before it clamps. When the cast keeps the low 8 bits, the field
for 30 is 14 and the field for 272 is 0, and the field for -1 is 14 and the
field for 0 is 0, for every mode: the order of the targets is lost. -/
theorem temperature_field_order_lost_by_cast (j : Nat) (mode : ClimateMode) :
    ((30 : Int) ≤ 272 ∧
      readByte (transmit_state_ wrapCast j ⟨mode, 30⟩).remote_state 1 &&& 0x0F = 14 ∧
      readByte (transmit_state_ wrapCast j ⟨mode, 272⟩).remote_state 1 &&& 0x0F = 0 ∧
      ¬ (readByte (transmit_state_ wrapCast j ⟨mode, 30⟩).remote_state 1 &&& 0x0F
          ≤ readByte (transmit_state_ wrapCast j ⟨mode, 272⟩).remote_state 1 &&& 0x0F)) ∧
    ((-1 : Int) ≤ 0 ∧
      readByte (transmit_state_ wrapCast j ⟨mode, -1⟩).remote_state 1 &&& 0x0F = 14 ∧
      readByte (transmit_state_ wrapCast j ⟨mode, 0⟩).remote_state 1 &&& 0x0F = 0 ∧
      ¬ (readByte (transmit_state_ wrapCast j ⟨mode, -1⟩).remote_state 1 &&& 0x0F
          ≤ readByte (transmit_state_ wrapCast j ⟨mode, 0⟩).remote_state 1 &&& 0x0F)) := by
  simp only [byte1_closed]
  decide

end Gree
